import Mathlib

/-!
Verification of the contact-form validator/submitter of `js/form-handler.js`.

The script is embedded shallowly:
* the five per-field validators (`validateName`, `validateEmail`, `validatePhone`,
  `validateSubject`, `validateMessage`) become pure `String → String` functions
  returning the error message (`""` = no error, mirroring JS string truthiness);
* the DOM bits the script reads and writes (input value, `aria-invalid`,
  the `error` CSS class, the error slot's text and visibility, the submit
  button, the success box, keyboard focus) become explicit record state;
* `validateField` / `validateForm` become state transformers returning the
  boolean verdict together with the updated display state;
* `handleSubmit` becomes a function of the pre-submit state and the outcome of
  the external submission collaborator, returning the settled state, the number
  of collaborator invocations, and a timed trace of the `SubmissionState`
  lifecycle (Idle / Validating / Sending / Succeeded / Failed) where each trace
  entry carries the delay, in milliseconds, between entering the previous phase
  and entering this one.

JavaScript string details are modelled explicitly: `jsWhitespace` is the
ECMAScript `\s` character class (also the character set trimmed by
`String.prototype.trim`), and `jsTrim` is JS `trim`.
-/

/-- ECMAScript whitespace: the `\s` regex class, which is also the set of
characters trimmed by `String.prototype.trim`. -/
def jsWhitespace (c : Char) : Bool :=
  c == ' ' || c == '\t' || c == '\n' || c == '\r' ||
  c.val == 11 || c.val == 12 ||
  c.val == 0xa0 || c.val == 0x1680 ||
  (0x2000 ≤ c.val && c.val ≤ 0x200a) ||
  c.val == 0x2028 || c.val == 0x2029 ||
  c.val == 0x202f || c.val == 0x205f ||
  c.val == 0x3000 || c.val == 0xfeff

/-- JavaScript `String.prototype.trim`: drop leading and trailing `\s`. -/
def jsTrim (s : String) : String :=
  String.mk (((s.data.dropWhile jsWhitespace).reverse.dropWhile jsWhitespace).reverse)

/-- Embeds `validateName` (form-handler.js lines 46-57). -/
def validateName (value : String) : String :=
  if (jsTrim value).length = 0 then "Name is required"
  else if (jsTrim value).length < 2 then "Name must be at least 2 characters"
  else if (jsTrim value).length > 100 then "Name must be less than 100 characters"
  else ""

/-- Test of the regex `^[^\s@]+@[^\s@]+\.[^\s@]+$` of form-handler.js line 66:
the value splits at a unique `@` into a non-empty whitespace-free local part
(`locPart`, the characters before the first `@`) and a whitespace-free,
`@`-free domain part containing a `.` at an interior position. -/
def emailRegexTest (v : String) : Bool :=
  let locPart := v.data.takeWhile (fun c => c != '@')
  match v.data.dropWhile (fun c => c != '@') with
  | [] => false
  | _ :: domPart =>
      domPart.all (fun c => c != '@') &&
      locPart.length > 0 &&
      locPart.all (fun c => !jsWhitespace c) &&
      domPart.all (fun c => !jsWhitespace c) &&
      (domPart.drop 1).dropLast.contains '.'

/-- Embeds `validateEmail` (form-handler.js lines 62-71). -/
def validateEmail (value : String) : String :=
  if (jsTrim value).length = 0 then "Email is required"
  else if !(emailRegexTest value) then "Please enter a valid email address"
  else ""

/-- Character class `[\d\s\-\+\(\)]` of the phone regex, form-handler.js line 80. -/
def phoneCharOk (c : Char) : Bool :=
  c.isDigit || jsWhitespace c || c == '-' || c == '+' || c == '(' || c == ')'

/-- Test of the regex `^[\d\s\-\+\(\)]+$` of form-handler.js line 80. -/
def phoneRegexTest (v : String) : Bool :=
  v.length > 0 && v.data.all phoneCharOk

/-- Embeds `validatePhone` (form-handler.js lines 76-85); the field is optional. -/
def validatePhone (value : String) : String :=
  if (jsTrim value).length = 0 then ""
  else if !(phoneRegexTest value) then "Please enter a valid phone number"
  else ""

/-- Embeds `validateSubject` (form-handler.js lines 90-95). -/
def validateSubject (value : String) : String :=
  if (jsTrim value).length = 0 then "Please select a subject" else ""

/-- Embeds `validateMessage` (form-handler.js lines 100-111). -/
def validateMessage (value : String) : String :=
  if (jsTrim value).length = 0 then "Message is required"
  else if (jsTrim value).length < 10 then "Message must be at least 10 characters"
  else if (jsTrim value).length > 2000 then "Message must be less than 2000 characters"
  else ""

/-- State of one form input element: its current value, its default value
(restored by `form.reset()`), the `aria-invalid` attribute, and whether the
`error` CSS class is present. -/
structure ElemState where
  value : String
  defaultValue : String
  ariaInvalid : Bool
  classError : Bool
deriving Repr, DecidableEq

/-- State of one field's error slot: its text content and whether it is
displayed (`style.display` block vs none). -/
structure ErrSlot where
  text : String
  visible : Bool
deriving Repr, DecidableEq

/-- One entry of the `formFields` table: the input element and the error slot,
either of which may be absent from the document (`document.getElementById`
returning null). -/
structure FieldDom where
  element : Option ElemState
  errorSlot : Option ErrSlot
deriving Repr, DecidableEq

/-- The five field keys of `formFields`, in declaration order. -/
inductive FName
  | name
  | email
  | phone
  | subject
  | message
deriving Repr, DecidableEq

/-- DOM state of the whole form: one `FieldDom` per `formFields` entry. -/
structure FormState where
  name : FieldDom
  email : FieldDom
  phone : FieldDom
  subject : FieldDom
  message : FieldDom
deriving Repr, DecidableEq

/-- Key lookup in the `formFields` object: only the five declared names hit. -/
def lookupFName (fieldName : String) : Option FName :=
  if fieldName = "name" then some FName.name
  else if fieldName = "email" then some FName.email
  else if fieldName = "phone" then some FName.phone
  else if fieldName = "subject" then some FName.subject
  else if fieldName = "message" then some FName.message
  else none

/-- Projection of one field's DOM state. -/
def getF (s : FormState) : FName → FieldDom
  | FName.name => s.name
  | FName.email => s.email
  | FName.phone => s.phone
  | FName.subject => s.subject
  | FName.message => s.message

/-- Replacement of one field's DOM state. -/
def setF (s : FormState) : FName → FieldDom → FormState
  | FName.name, d => { s with name := d }
  | FName.email, d => { s with email := d }
  | FName.phone, d => { s with phone := d }
  | FName.subject, d => { s with subject := d }
  | FName.message, d => { s with message := d }

/-- The `required` flag: `field.required !== false`; only phone declares
`required: false`. -/
def requiredF : FName → Bool
  | FName.phone => false
  | _ => true

/-- The `validator` entry of each field. -/
def validatorF : FName → String → String
  | FName.name => validateName
  | FName.email => validateEmail
  | FName.phone => validatePhone
  | FName.subject => validateSubject
  | FName.message => validateMessage

/-- Effect of `showError` (form-handler.js lines 116-126) on one field: if the
error slot exists, set its text and show it, and if the element exists, set
`aria-invalid` and add the `error` class; otherwise do nothing. -/
def showErrorFd (fd : FieldDom) (msg : String) : FieldDom :=
  match fd.errorSlot with
  | none => fd
  | some _ =>
      { element := fd.element.map (fun e => { e with ariaInvalid := true, classError := true }),
        errorSlot := some { text := msg, visible := true } }

/-- Effect of `clearError` (form-handler.js lines 131-141) on one field. -/
def clearErrorFd (fd : FieldDom) : FieldDom :=
  match fd.errorSlot with
  | none => fd
  | some _ =>
      { element := fd.element.map (fun e => { e with ariaInvalid := false, classError := false }),
        errorSlot := some { text := "", visible := false } }

/-- Embeds `showError` (form-handler.js lines 116-126). -/
def showError (s : FormState) (fieldName msg : String) : FormState :=
  match lookupFName fieldName with
  | none => s
  | some fn => setF s fn (showErrorFd (getF s fn) msg)

/-- Embeds `clearError` (form-handler.js lines 131-141). -/
def clearError (s : FormState) (fieldName : String) : FormState :=
  match lookupFName fieldName with
  | none => s
  | some fn => setF s fn (clearErrorFd (getF s fn))

/-- Core of `validateField` (form-handler.js lines 146-167) acting on one
field's DOM state: missing element returns valid untouched; an optional field
with empty (trimmed) value is cleared and valid; otherwise the validator's
verdict drives `showError` / `clearError`. -/
def validateFd (fn : FName) (fd : FieldDom) : Bool × FieldDom :=
  match fd.element with
  | none => (true, fd)
  | some el =>
      if requiredF fn = false ∧ (jsTrim el.value).length = 0 then
        (true, clearErrorFd fd)
      else
        let err := validatorF fn el.value
        if err ≠ "" then (false, showErrorFd fd err)
        else (true, clearErrorFd fd)

/-- `validateField` specialised to a known field key: reads that field's DOM
state, rewrites it, leaves every other field alone. -/
def validateFieldF (s : FormState) (fn : FName) : Bool × FormState :=
  let r := validateFd fn (getF s fn)
  (r.1, setF s fn r.2)

/-- Embeds `validateField` (form-handler.js lines 146-167): an unknown field
name returns valid with no state change (the `!field` guard). -/
def validateField (s : FormState) (fieldName : String) : Bool × FormState :=
  match lookupFName fieldName with
  | none => (true, s)
  | some fn => validateFieldF s fn

/-- Iteration order of `Object.keys(formFields)`: insertion order. -/
def fieldOrder : List String := ["name", "email", "phone", "subject", "message"]

/-- Embeds `validateForm` (form-handler.js lines 172-182): runs `validateField`
on every field (never short-circuiting) and conjoins the verdicts. -/
def validateForm (s : FormState) : Bool × FormState :=
  fieldOrder.foldl
    (fun acc fieldName =>
      let r := validateField acc.2 fieldName
      (acc.1 && r.1, r.2))
    (true, s)

/-- Keyboard-focus target: a field's input element or the success box. -/
inductive FocusTarget
  | field (fn : FName)
  | successBox
deriving Repr, DecidableEq

/-- Page state around the form: the field DOM, the submit button's disabled
flag and label, the success box (`none` when `#form-success` is absent,
otherwise its visibility), and the focused element. -/
structure AppState where
  form : FormState
  buttonDisabled : Bool
  buttonLabel : String
  success : Option Bool
  focused : Option FocusTarget
deriving Repr, DecidableEq

/-- Embeds `showSuccess` (form-handler.js lines 187-196): when the success box
exists, display it and focus it. -/
def showSuccessA (s : AppState) : AppState :=
  match s.success with
  | none => s
  | some _ => { s with success := some true, focused := some FocusTarget.successBox }

/-- Embeds `hideSuccess` (form-handler.js lines 201-205). -/
def hideSuccessA (s : AppState) : AppState :=
  { s with success := s.success.map (fun _ => false) }

/-- Effect of `form.reset()` on one element: restore the default value. -/
def resetFd (fd : FieldDom) : FieldDom :=
  { fd with element := fd.element.map (fun e => { e with value := e.defaultValue }) }

/-- Embeds `resetForm` (form-handler.js lines 210-216): `contactForm.reset()`,
then `clearError` on every field, then `hideSuccess`. -/
def resetFormA (s : AppState) : AppState :=
  hideSuccessA
    { s with form :=
        { name := clearErrorFd (resetFd s.form.name),
          email := clearErrorFd (resetFd s.form.email),
          phone := clearErrorFd (resetFd s.form.phone),
          subject := clearErrorFd (resetFd s.form.subject),
          message := clearErrorFd (resetFd s.form.message) } }

/-- The five field keys in `formFields` declaration order. -/
def declOrder : List FName :=
  [FName.name, FName.email, FName.phone, FName.subject, FName.message]

/-- Embeds the first-error search of `handleSubmit` (form-handler.js lines
230-233): the first field, in declaration order, whose element exists and
carries `aria-invalid="true"`. -/
def firstInvalidField (s : FormState) : Option FName :=
  declOrder.find? (fun fn =>
    match (getF s fn).element with
    | some el => el.ariaInvalid
    | none => false)

/-- Outcome of the external submission collaborator for one attempt: the
promise resolves, or rejects with some error value.  The reference
`simulateFormSubmission` always resolves after 1000 ms; a real collaborator may
reject (form-handler.js lines 284-299 and the catch at line 273). -/
inductive Outcome
  | success
  | failure (err : String)
deriving Repr, DecidableEq

/-- The five-phase submission lifecycle of the design (spec data model). -/
inductive SubmissionState
  | Idle
  | Validating
  | Sending
  | Succeeded
  | Failed
deriving Repr, DecidableEq

/-- Result of one submit invocation: the settled page state, how many times the
submission collaborator was invoked, and the timed phase trace.  Each trace
entry is `(phase, d)`: the phase entered `d` milliseconds after the previous
one. -/
structure SubmitResult where
  state : AppState
  calls : Nat
  trace : List (SubmissionState × Nat)
deriving Repr, DecidableEq

/-- Generic failure message shown by the catch branch, form-handler.js line 275. -/
def failureMessage : String :=
  "Failed to send message. Please try again or contact us directly."

/-- Busy label put on the submit button while sending (line 256). -/
def sendingLabel : String := "Sending..."

/-- Delay of the post-success reset timer (line 271). -/
def resetDelay : Nat := 3000

/-- Start of `handleSubmit` (lines 221-228): hide any previous success message,
then run `validateForm`; returns the verdict and the state at that point. -/
def afterValidation (s : AppState) : Bool × AppState :=
  let s0 := hideSuccessA s
  let vr := validateForm s0.form
  (vr.1, { s0 with form := vr.2 })

/-- State while the submission is in flight (lines 252-256): button disabled
and relabelled, reached when validation passed. -/
def sendingState (s : AppState) : AppState :=
  { (afterValidation s).2 with buttonDisabled := true, buttonLabel := sendingLabel }

/-- Embeds `handleSubmit` (form-handler.js lines 221-279), parametrised by the
collaborator's outcome and its delay `d` in milliseconds.  On validation
failure: focus the first invalid field and return, no collaborator call.  On
success: show the success box, then after `resetDelay` reset the form and
re-enable the button.  On failure: show the generic message on the message
field's slot and re-enable the button immediately. -/
def handleSubmit (s : AppState) (o : Outcome) (d : Nat) : SubmitResult :=
  let av := afterValidation s
  if av.1 then
    let orig := av.2.buttonLabel
    let mid := sendingState s
    match o with
    | Outcome.success =>
        let s3 := showSuccessA mid
        let s4 := { resetFormA s3 with buttonDisabled := false, buttonLabel := orig }
        { state := s4, calls := 1,
          trace := [(SubmissionState.Idle, 0), (SubmissionState.Validating, 0),
                    (SubmissionState.Sending, 0), (SubmissionState.Succeeded, d),
                    (SubmissionState.Idle, resetDelay)] }
    | Outcome.failure _ =>
        let s3 := { mid with form := showError mid.form "message" failureMessage }
        let s4 := { s3 with buttonDisabled := false, buttonLabel := orig }
        { state := s4, calls := 1,
          trace := [(SubmissionState.Idle, 0), (SubmissionState.Validating, 0),
                    (SubmissionState.Sending, 0), (SubmissionState.Failed, d),
                    (SubmissionState.Idle, 0)] }
  else
    let s2 :=
      match firstInvalidField av.2.form with
      | some fn => { av.2 with focused := some (FocusTarget.field fn) }
      | none => av.2
    { state := s2, calls := 0,
      trace := [(SubmissionState.Idle, 0), (SubmissionState.Validating, 0),
                (SubmissionState.Idle, 0)] }

/-- Modelled from the spec: the browser dispatches no submit event while the
submit control is disabled (spec concurrency guard, section 4.1); a submit
request on a disabled control is a no-op with no collaborator call.  When the
control is enabled, the request runs `handleSubmit`. -/
def requestSubmit (s : AppState) (o : Outcome) (d : Nat) : SubmitResult :=
  if s.buttonDisabled then { state := s, calls := 0, trace := [] }
  else handleSubmit s o d

/-- Edge relation of the spec's SubmissionState machine:
Idle→Validating→{Sending→{Succeeded,Failed}} | {Validating→Idle}, with
Succeeded→Idle and Failed→Idle. -/
def allowedEdge : SubmissionState → SubmissionState → Bool
  | SubmissionState.Idle, SubmissionState.Validating => true
  | SubmissionState.Validating, SubmissionState.Sending => true
  | SubmissionState.Validating, SubmissionState.Idle => true
  | SubmissionState.Sending, SubmissionState.Succeeded => true
  | SubmissionState.Sending, SubmissionState.Failed => true
  | SubmissionState.Succeeded, SubmissionState.Idle => true
  | SubmissionState.Failed, SubmissionState.Idle => true
  | _, _ => false

/-- A timed trace stays inside `allowedEdge`. -/
def chainOk : List (SubmissionState × Nat) → Bool
  | a :: b :: rest => allowedEdge a.1 b.1 && chainOk (b :: rest)
  | _ => true

/-- Concrete field DOM with the given value, both elements present. -/
def mkField (v : String) : FieldDom :=
  { element := some { value := v, defaultValue := "", ariaInvalid := false, classError := false },
    errorSlot := some { text := "", visible := false } }

/-- Concrete form with every field valid (spec's end-to-end example). -/
def sampleFormGood : FormState :=
  { name := mkField "Jo", email := mkField "jo@x.com", phone := mkField "",
    subject := mkField "General", message := mkField "Hello there!" }

/-- Concrete form with email invalid and message too short, name valid. -/
def sampleFormBad : FormState :=
  { name := mkField "Jo", email := mkField "not-an-email", phone := mkField "",
    subject := mkField "General", message := mkField "short" }

/-- Page state around `sampleFormGood`, button enabled. -/
def sampleGood : AppState :=
  { form := sampleFormGood, buttonDisabled := false, buttonLabel := "Send Message",
    success := some false, focused := none }

/-- Page state around `sampleFormBad`, button enabled. -/
def sampleBad : AppState :=
  { form := sampleFormBad, buttonDisabled := false, buttonLabel := "Send Message",
    success := some false, focused := none }

/-- Reading a field after writing the same field yields the written value. -/
theorem getF_setF_same (s : FormState) (fn : FName) (d : FieldDom) :
    getF (setF s fn d) fn = d := by
  cases fn <;> rfl

/-- Reading a field after writing a different field is unchanged. -/
theorem getF_setF_ne {fn fn' : FName} (s : FormState) (d : FieldDom) (h : fn ≠ fn') :
    getF (setF s fn d) fn' = getF s fn' := by
  cases fn <;> cases fn' <;> first | rfl | exact absurd rfl h

/-- Writing a field back to itself is the identity. -/
theorem setF_getF (s : FormState) (fn : FName) : setF s fn (getF s fn) = s := by
  cases fn <;> rfl

/-- Lifting `showError` keeps the input element's value. -/
theorem showErrorFd_value (fd : FieldDom) (msg : String) :
    (showErrorFd fd msg).element.map ElemState.value = fd.element.map ElemState.value := by
  rcases fd with ⟨el, slot⟩
  cases slot <;> cases el <;> simp [showErrorFd]

/-- Lifting `clearError` keeps the input element's value. -/
theorem clearErrorFd_value (fd : FieldDom) :
    (clearErrorFd fd).element.map ElemState.value = fd.element.map ElemState.value := by
  rcases fd with ⟨el, slot⟩
  cases slot <;> cases el <;> simp [clearErrorFd]

/-- `validateField`'s per-field action keeps the input element's value. -/
theorem validateFd_value (fn : FName) (fd : FieldDom) :
    (validateFd fn fd).2.element.map ElemState.value = fd.element.map ElemState.value := by
  rcases fd with ⟨el, slot⟩
  cases el with
  | none => rfl
  | some e =>
      simp only [validateFd]
      split
      · exact clearErrorFd_value _
      · split
        · exact showErrorFd_value _ _
        · exact clearErrorFd_value _

/-- `showError` keeps the error slot present when it was present. -/
theorem showErrorFd_isSome (fd : FieldDom) (msg : String) :
    (showErrorFd fd msg).errorSlot.isSome = fd.errorSlot.isSome := by
  rcases fd with ⟨el, slot⟩
  cases slot <;> simp [showErrorFd]

/-- `clearError` keeps the error slot present when it was present. -/
theorem clearErrorFd_isSome (fd : FieldDom) :
    (clearErrorFd fd).errorSlot.isSome = fd.errorSlot.isSome := by
  rcases fd with ⟨el, slot⟩
  cases slot <;> simp [clearErrorFd]

/-- `validateField`'s per-field action keeps the error slot present. -/
theorem validateFd_isSome (fn : FName) (fd : FieldDom) :
    (validateFd fn fd).2.errorSlot.isSome = fd.errorSlot.isSome := by
  rcases fd with ⟨el, slot⟩
  cases el with
  | none => rfl
  | some e =>
      simp only [validateFd]
      split
      · exact clearErrorFd_isSome _
      · split
        · exact showErrorFd_isSome _ _
        · exact clearErrorFd_isSome _

/-- When the error slot exists, `showError` puts the message into it and shows it. -/
theorem showErrorFd_slot (fd : FieldDom) (msg : String) (h : fd.errorSlot.isSome = true) :
    (showErrorFd fd msg).errorSlot = some { text := msg, visible := true } := by
  rcases fd with ⟨el, slot⟩
  cases slot with
  | none => simp at h
  | some sl => simp [showErrorFd]

/-- Unfolding of `validateForm`: the five `validateField` calls run in
declaration order, each field's display depends only on its own prior state,
and the verdict is the conjunction of the five per-field verdicts on the
original state. -/
theorem validateForm_unfold (s : FormState) :
    validateForm s =
      ((validateFd FName.name s.name).1 && (validateFd FName.email s.email).1 &&
         (validateFd FName.phone s.phone).1 && (validateFd FName.subject s.subject).1 &&
         (validateFd FName.message s.message).1,
       { name := (validateFd FName.name s.name).2,
         email := (validateFd FName.email s.email).2,
         phone := (validateFd FName.phone s.phone).2,
         subject := (validateFd FName.subject s.subject).2,
         message := (validateFd FName.message s.message).2 }) := rfl

/-- When `jsTrim` wipes a string to length zero, every character was whitespace. -/
theorem jsTrim_len_zero_all (v : String) (h : (jsTrim v).length = 0) :
    v.data.all jsWhitespace = true := by
  have hd : (((v.data.dropWhile jsWhitespace).reverse.dropWhile jsWhitespace).reverse).length = 0 := h
  rw [List.length_eq_zero] at hd
  rw [List.reverse_eq_nil_iff] at hd
  have h2 : ∀ c ∈ (v.data.dropWhile jsWhitespace).reverse, jsWhitespace c :=
    List.dropWhile_eq_nil_iff.mp hd
  have h3 : ∀ c ∈ v.data.dropWhile jsWhitespace, jsWhitespace c := by
    intro c hc
    exact h2 c (List.mem_reverse.mpr hc)
  rw [List.all_eq_true]
  intro c hc
  have hsplit := @List.takeWhile_append_dropWhile _ jsWhitespace v.data
  rw [← hsplit] at hc
  rcases List.mem_append.mp hc with h4 | h4
  · exact List.mem_takeWhile_imp h4
  · exact h3 c h4

/-- A value containing a character outside the phone regex's class is not
wiped by `jsTrim` (such a character is not whitespace). -/
theorem badPhone_jsTrim_ne (v : String) (h : v.data.all phoneCharOk = false) :
    (jsTrim v).length ≠ 0 := by
  intro h0
  have hall := jsTrim_len_zero_all v h0
  rw [List.all_eq_true] at hall
  have : v.data.all phoneCharOk = true := by
    rw [List.all_eq_true]
    intro c hc
    have hw := hall c hc
    simp [phoneCharOk, hw]
  rw [this] at h
  exact absurd h (by decide)

/-- C1: `validateForm` runs `validateField` for every field in the fixed
declaration order without short-circuiting — every field's error display ends
up exactly as its own `validateField` call leaves it, regardless of other
fields' verdicts — and it returns true if and only if every per-field
`validateField` call returns valid. -/
theorem validateForm_spec (s : FormState) :
    ((validateForm s).1 = true ↔ ∀ fn : FName, (validateFieldF s fn).1 = true)
    ∧ (∀ fn : FName, getF (validateForm s).2 fn = getF (validateFieldF s fn).2 fn) := by
  constructor
  · rw [validateForm_unfold]
    simp only [Bool.and_eq_true]
    constructor
    · rintro ⟨⟨⟨⟨h1, h2⟩, h3⟩, h4⟩, h5⟩ fn
      cases fn
      · exact h1
      · exact h2
      · exact h3
      · exact h4
      · exact h5
    · intro h
      exact ⟨⟨⟨⟨h FName.name, h FName.email⟩, h FName.phone⟩, h FName.subject⟩, h FName.message⟩
  · intro fn
    rw [validateForm_unfold]
    have hsame : getF (validateFieldF s fn).2 fn = (validateFd fn (getF s fn)).2 :=
      getF_setF_same s fn _
    rw [hsame]
    cases fn <;> rfl

/-- C1 witness: the equivalence and the message-field display equation at a
concrete form. -/
theorem validateForm_spec_witness :
    ((validateForm sampleFormBad).1 = true ↔
      ∀ fn : FName, (validateFieldF sampleFormBad fn).1 = true)
    ∧ getF (validateForm sampleFormBad).2 FName.message
        = getF (validateFieldF sampleFormBad FName.message).2 FName.message :=
  ⟨(validateForm_spec sampleFormBad).1, (validateForm_spec sampleFormBad).2 FName.message⟩

/-- C7: `validateName` on the trimmed value — empty gives the required error,
length 1 gives too short, lengths 2 and 100 are valid, length 101 gives too
long. -/
theorem validateName_lengths (v : String) :
    ((jsTrim v).length = 0 → validateName v = "Name is required")
    ∧ ((jsTrim v).length = 1 → validateName v = "Name must be at least 2 characters")
    ∧ (((jsTrim v).length = 2 ∨ (jsTrim v).length = 100) → validateName v = "")
    ∧ ((jsTrim v).length = 101 → validateName v = "Name must be less than 100 characters") := by
  refine ⟨?_, ?_, ?_, ?_⟩
  · intro h
    simp [validateName, h]
  · intro h
    simp [validateName, h]
  · rintro (h | h) <;> simp [validateName, h]
  · intro h
    simp [validateName, h]

/-- C7 witness: the four length regimes at concrete names. -/
theorem validateName_lengths_witness :
    validateName "  " = "Name is required"
    ∧ validateName "A" = "Name must be at least 2 characters"
    ∧ validateName "Jo" = ""
    ∧ validateName (String.mk (List.replicate 100 'a')) = ""
    ∧ validateName (String.mk (List.replicate 101 'a'))
        = "Name must be less than 100 characters" :=
  ⟨(validateName_lengths "  ").1 (by decide),
   (validateName_lengths "A").2.1 (by decide),
   (validateName_lengths "Jo").2.2.1 (Or.inl (by decide)),
   (validateName_lengths (String.mk (List.replicate 100 'a'))).2.2.1 (Or.inr (by decide)),
   (validateName_lengths (String.mk (List.replicate 101 'a'))).2.2.2 (by decide)⟩

/-- C8: `validateMessage` on the trimmed value — empty gives the required
error, length 9 gives too short, length 10 is valid, length 2001 gives too
long. -/
theorem validateMessage_lengths (v : String) :
    ((jsTrim v).length = 0 → validateMessage v = "Message is required")
    ∧ ((jsTrim v).length = 9 → validateMessage v = "Message must be at least 10 characters")
    ∧ ((jsTrim v).length = 10 → validateMessage v = "")
    ∧ ((jsTrim v).length = 2001 → validateMessage v = "Message must be less than 2000 characters") := by
  refine ⟨?_, ?_, ?_, ?_⟩
  · intro h
    simp [validateMessage, h]
  · intro h
    simp [validateMessage, h]
  · intro h
    simp [validateMessage, h]
  · intro h
    simp [validateMessage, h]

/-- Trimming a block of letters is the identity, at any length. -/
theorem jsTrim_replicate (n : Nat) :
    (jsTrim (String.mk (List.replicate n 'a'))).length = n := by
  have hdrop : ∀ m : Nat, (List.replicate m 'a').dropWhile jsWhitespace = List.replicate m 'a' := by
    intro m
    cases m with
    | zero => rfl
    | succ k =>
        rw [List.replicate_succ, List.dropWhile_cons]
        simp [jsWhitespace]
  show ((((List.replicate n 'a').dropWhile jsWhitespace).reverse.dropWhile
          jsWhitespace).reverse).length = n
  rw [hdrop n, List.reverse_replicate, hdrop n, List.reverse_replicate,
    List.length_replicate]

/-- C8 witness: the four length regimes at concrete messages. -/
theorem validateMessage_lengths_witness :
    validateMessage "" = "Message is required"
    ∧ validateMessage "123456789" = "Message must be at least 10 characters"
    ∧ validateMessage "1234567890" = ""
    ∧ validateMessage (String.mk (List.replicate 2001 'a'))
        = "Message must be less than 2000 characters" :=
  ⟨(validateMessage_lengths "").1 (by decide),
   (validateMessage_lengths "123456789").2.1 (by decide),
   (validateMessage_lengths "1234567890").2.2.1 (by decide),
   (validateMessage_lengths (String.mk (List.replicate 2001 'a'))).2.2.2 (jsTrim_replicate 2001)⟩

/-- C9: `validateField` mutates only the named field — every other field's DOM
state (error text, visibility, invalid-marker, class, value) is untouched —
and even on the named field the input element's value is never changed. -/
theorem validateField_frame (s : FormState) (fieldName : String) (fn : FName) :
    (lookupFName fieldName ≠ some fn →
      getF (validateField s fieldName).2 fn = getF s fn)
    ∧ (getF (validateField s fieldName).2 fn).element.map ElemState.value
        = (getF s fn).element.map ElemState.value := by
  unfold validateField
  cases hl : lookupFName fieldName with
  | none => exact ⟨fun _ => rfl, rfl⟩
  | some fn' =>
      constructor
      · intro hne
        have hne' : fn' ≠ fn := fun he2 => hne (by rw [he2])
        exact getF_setF_ne s _ hne'
      · by_cases he : fn' = fn
        · subst he
          have h1 : getF (validateFieldF s fn').2 fn' = (validateFd fn' (getF s fn')).2 :=
            getF_setF_same s fn' _
          rw [h1]
          exact validateFd_value fn' (getF s fn')
        · have h1 : getF (validateFieldF s fn').2 fn = getF s fn := getF_setF_ne s _ he
          rw [h1]

/-- C9 witness: validating email leaves the name field untouched, and the
email input's value itself is not rewritten. -/
theorem validateField_frame_witness :
    getF (validateField sampleFormBad "email").2 FName.name = getF sampleFormBad FName.name
    ∧ (getF (validateField sampleFormBad "email").2 FName.email).element.map ElemState.value
        = (getF sampleFormBad FName.email).element.map ElemState.value :=
  ⟨(validateField_frame sampleFormBad "email" FName.name).1 (by decide),
   (validateField_frame sampleFormBad "email" FName.email).2⟩

/-- C10: a `validateField` call on an unknown field name, or on a field whose
input element is missing from the document, returns valid and changes no
field's state at all. -/
theorem validateField_missing (s : FormState) (fieldName : String)
    (h : (lookupFName fieldName).bind (fun fn => (getF s fn).element) = none) :
    validateField s fieldName = (true, s) := by
  unfold validateField
  cases hl : lookupFName fieldName with
  | none => rfl
  | some fn =>
      rw [hl] at h
      have he : (getF s fn).element = none := by simpa using h
      show validateFieldF s fn = (true, s)
      unfold validateFieldF
      rw [show validateFd fn (getF s fn) = (true, getF s fn) by
        unfold validateFd
        rw [he]]
      simp [setF_getF]

/-- Concrete form whose subject input element is missing from the document. -/
def noElemForm : FormState :=
  { sampleFormGood with
    subject := { element := none, errorSlot := some { text := "", visible := false } } }

/-- C10 witness: an undeclared field name, and a declared field with its input
element absent. -/
theorem validateField_missing_witness :
    validateField sampleFormGood "nickname" = (true, sampleFormGood)
    ∧ validateField noElemForm "subject" = (true, noElemForm) :=
  ⟨validateField_missing sampleFormGood "nickname" rfl,
   validateField_missing noElemForm "subject" rfl⟩

/-- Modelled from the spec's words for comparison with the source: the claimed
phone character set "digits, space, +, -, and parentheses" (space only, not
the whole whitespace class). -/
def claimedPhoneChar (c : Char) : Bool :=
  c.isDigit || c == ' ' || c == '+' || c == '-' || c == '(' || c == ')'

/-- Concrete form whose phone input holds a value with an embedded tab. -/
def cexPhoneForm : FormState := { sampleFormGood with phone := mkField "1\t2" }

/-- C6 counterexample: the phone value with an embedded tab is non-empty, not
whitespace-only, and contains a character outside digits, space, +, -, and
parentheses, yet `validateField` reports it valid and leaves no error — the
source's `\s` class also accepts tab, newline, and the other whitespace
characters. -/
theorem validatePhone_space_counterexample :
    ("1\t2" ≠ "" ∧ jsTrim "1\t2" = "1\t2")
    ∧ "1\t2".data.all claimedPhoneChar = false
    ∧ validatePhone "1\t2" = ""
    ∧ (validateField cexPhoneForm "phone").1 = true
    ∧ (validateField cexPhoneForm "phone").2.phone.errorSlot
        = some { text := "", visible := false } := by decide

/-- C6 amended: `validateField` on the phone field clears any error and
returns valid on every empty or whitespace-only value; every value containing
a character outside digits, whitespace (the `\s` class), +, -, and parentheses
is reported with the invalid-format message; `"+1 (555) 123-4567"` is valid
and `"call-me"` is invalid. -/
theorem validateField_phone_amended (s : FormState) (el : ElemState)
    (he : (getF s FName.phone).element = some el) :
    ((jsTrim el.value).length = 0 →
      validateField s "phone"
        = (true, setF s FName.phone (clearErrorFd (getF s FName.phone))))
    ∧ (el.value.data.all phoneCharOk = false →
      validateField s "phone"
        = (false, setF s FName.phone
            (showErrorFd (getF s FName.phone) "Please enter a valid phone number")))
    ∧ validatePhone "+1 (555) 123-4567" = ""
    ∧ validatePhone "call-me" = "Please enter a valid phone number" := by
  refine ⟨?_, ?_, by decide, by decide⟩
  · intro h
    show validateFieldF s FName.phone = _
    unfold validateFieldF
    rw [show validateFd FName.phone (getF s FName.phone)
          = (true, clearErrorFd (getF s FName.phone)) by
      unfold validateFd
      rw [he]
      simp [requiredF, h]]
  · intro hbad
    have hlen : (jsTrim el.value).length ≠ 0 := badPhone_jsTrim_ne el.value hbad
    show validateFieldF s FName.phone = _
    unfold validateFieldF
    rw [show validateFd FName.phone (getF s FName.phone)
          = (false, showErrorFd (getF s FName.phone) "Please enter a valid phone number") by
      unfold validateFd
      rw [he]
      have herr : validatePhone el.value = "Please enter a valid phone number" := by
        unfold validatePhone
        rw [if_neg hlen]
        have : phoneRegexTest el.value = false := by
          unfold phoneRegexTest
          rw [hbad, Bool.and_false]
        rw [this]
        rfl
      simp [requiredF, hlen, validatorF, herr]]

/-- Concrete form whose phone input holds letters. -/
def cexPhoneLetters : FormState := { sampleFormGood with phone := mkField "call-me" }

/-- C6 amended witness: the cleared-valid branch on an empty phone and the
invalid-format branch on a lettered phone, at concrete forms. -/
theorem validateField_phone_amended_witness :
    validateField sampleFormGood "phone"
      = (true, setF sampleFormGood FName.phone (clearErrorFd (getF sampleFormGood FName.phone)))
    ∧ validateField cexPhoneLetters "phone"
      = (false, setF cexPhoneLetters FName.phone
          (showErrorFd (getF cexPhoneLetters FName.phone) "Please enter a valid phone number")) :=
  ⟨(validateField_phone_amended sampleFormGood _ rfl).1 (by decide),
   (validateField_phone_amended cexPhoneLetters _ rfl).2.1 (by decide)⟩

/-- `showError` never changes any input element's value. -/
theorem showError_values (s : FormState) (fieldName msg : String) (fn : FName) :
    (getF (showError s fieldName msg) fn).element.map ElemState.value
      = (getF s fn).element.map ElemState.value := by
  unfold showError
  cases hl : lookupFName fieldName with
  | none => rfl
  | some fn' =>
      by_cases he : fn' = fn
      · subst he
        rw [getF_setF_same]
        exact showErrorFd_value _ _
      · rw [getF_setF_ne s _ he]

/-- `validateForm` never changes any input element's value. -/
theorem validateForm_values (s : FormState) (fn : FName) :
    (getF (validateForm s).2 fn).element.map ElemState.value
      = (getF s fn).element.map ElemState.value := by
  rw [validateForm_unfold]
  cases fn <;> exact validateFd_value _ _

/-- `validateForm` keeps the message field's error slot present. -/
theorem validateForm_slot_msg (s : FormState) :
    (validateForm s).2.message.errorSlot.isSome = s.message.errorSlot.isSome := by
  rw [validateForm_unfold]
  exact validateFd_isSome FName.message s.message

/-- C2: when the collaborator rejects on a validated submission, the handler
makes exactly one collaborator call and no retry, re-enables the submit button
with its original label with no delay (the final trace step is `(Idle, 0)`),
shows no success indicator, changes no field value, puts the generic failure
message into the message field's error slot, and produces a result independent
of the underlying error value. -/
theorem handleSubmit_failure_spec (s : AppState) (errVal : String) (d : Nat)
    (hv : (afterValidation s).1 = true)
    (hs : s.form.message.errorSlot.isSome = true) :
    (handleSubmit s (Outcome.failure errVal) d).calls = 1
    ∧ (handleSubmit s (Outcome.failure errVal) d).state.buttonDisabled = false
    ∧ (handleSubmit s (Outcome.failure errVal) d).state.buttonLabel = s.buttonLabel
    ∧ (handleSubmit s (Outcome.failure errVal) d).state.success ≠ some true
    ∧ (∀ fn : FName,
        (getF (handleSubmit s (Outcome.failure errVal) d).state.form fn).element.map
            ElemState.value
          = (getF s.form fn).element.map ElemState.value)
    ∧ (handleSubmit s (Outcome.failure errVal) d).state.form.message.errorSlot
        = some { text := failureMessage, visible := true }
    ∧ (handleSubmit s (Outcome.failure errVal) d).trace.getLast? = some (SubmissionState.Idle, 0)
    ∧ (∀ e2 : String,
        handleSubmit s (Outcome.failure e2) d = handleSubmit s (Outcome.failure errVal) d) := by
  have hss : (handleSubmit s (Outcome.failure errVal) d).state
      = { (afterValidation s).2 with
          form := showError (afterValidation s).2.form "message" failureMessage,
          buttonDisabled := false, buttonLabel := (afterValidation s).2.buttonLabel } := by
    simp only [handleSubmit, hv, if_true, sendingState]
  refine ⟨?_, ?_, ?_, ?_, ?_, ?_, ?_, ?_⟩
  · simp only [handleSubmit, hv, if_true]
  · rw [hss]
  · rw [hss]
    rfl
  · rw [hss]
    show (s.success.map (fun _ => false)) ≠ some true
    cases s.success <;> simp
  · intro fn
    rw [hss]
    have h1 := showError_values (afterValidation s).2.form "message" failureMessage fn
    have h2 := validateForm_values s.form fn
    exact h1.trans h2
  · rw [hss]
    have hs2 : ((validateForm s.form).2.message.errorSlot.isSome) = true := by
      rw [validateForm_slot_msg]
      exact hs
    show (showError (afterValidation s).2.form "message" failureMessage).message.errorSlot = _
    have hmsg : (showError (afterValidation s).2.form "message" failureMessage).message
        = showErrorFd ((afterValidation s).2.form.message) failureMessage := rfl
    rw [hmsg]
    exact showErrorFd_slot _ _ hs2
  · simp only [handleSubmit, hv, if_true]
    rfl
  · intro e2
    simp only [handleSubmit]

/-- C2 witness: the failure outcome on the spec's end-to-end valid form. -/
theorem handleSubmit_failure_witness :
    (handleSubmit sampleGood (Outcome.failure "boom") 1000).calls = 1
    ∧ (handleSubmit sampleGood (Outcome.failure "boom") 1000).state.buttonDisabled = false
    ∧ (handleSubmit sampleGood (Outcome.failure "boom") 1000).state.buttonLabel
        = sampleGood.buttonLabel
    ∧ (handleSubmit sampleGood (Outcome.failure "boom") 1000).state.form.message.errorSlot
        = some { text := failureMessage, visible := true }
    ∧ (handleSubmit sampleGood (Outcome.failure "other error") 1000
        = handleSubmit sampleGood (Outcome.failure "boom") 1000) :=
  ⟨(handleSubmit_failure_spec sampleGood "boom" 1000 (by decide) (by decide)).1,
   (handleSubmit_failure_spec sampleGood "boom" 1000 (by decide) (by decide)).2.1,
   (handleSubmit_failure_spec sampleGood "boom" 1000 (by decide) (by decide)).2.2.1,
   (handleSubmit_failure_spec sampleGood "boom" 1000 (by decide) (by decide)).2.2.2.2.2.1,
   (handleSubmit_failure_spec sampleGood "boom" 1000 (by decide) (by decide)).2.2.2.2.2.2.2
     "other error"⟩

/-- C3 amended: every submit invocation's phase trace moves only along
Idle→Validating→{Sending→{Succeeded,Failed}} or Validating→Idle on validation
failure; Succeeded returns to Idle only after the fixed `resetDelay`
observation window, while Failed returns to Idle immediately (delay 0, the
button is re-enabled in the same turn). -/
theorem handleSubmit_transitions (s : AppState) (o : Outcome) (d : Nat) :
    chainOk (handleSubmit s o d).trace = true
    ∧ ((afterValidation s).1 = false →
        (handleSubmit s o d).trace
          = [(SubmissionState.Idle, 0), (SubmissionState.Validating, 0),
             (SubmissionState.Idle, 0)])
    ∧ ((afterValidation s).1 = true →
        (handleSubmit s Outcome.success d).trace
          = [(SubmissionState.Idle, 0), (SubmissionState.Validating, 0),
             (SubmissionState.Sending, 0), (SubmissionState.Succeeded, d),
             (SubmissionState.Idle, resetDelay)])
    ∧ ((afterValidation s).1 = true → ∀ e : String,
        (handleSubmit s (Outcome.failure e) d).trace
          = [(SubmissionState.Idle, 0), (SubmissionState.Validating, 0),
             (SubmissionState.Sending, 0), (SubmissionState.Failed, d),
             (SubmissionState.Idle, 0)]) := by
  refine ⟨?_, ?_, ?_, ?_⟩
  · cases hv : (afterValidation s).1 <;> cases o <;>
      simp [handleSubmit, hv, chainOk, allowedEdge]
  · intro hv
    cases o <;> simp [handleSubmit, hv]
  · intro hv
    simp [handleSubmit, hv]
  · intro hv e
    simp [handleSubmit, hv]

/-- C3 witness: the three trace shapes on concrete forms. -/
theorem handleSubmit_transitions_witness :
    chainOk (handleSubmit sampleGood Outcome.success 1000).trace = true
    ∧ (handleSubmit sampleBad Outcome.success 1000).trace
        = [(SubmissionState.Idle, 0), (SubmissionState.Validating, 0),
           (SubmissionState.Idle, 0)]
    ∧ (handleSubmit sampleGood Outcome.success 1000).trace
        = [(SubmissionState.Idle, 0), (SubmissionState.Validating, 0),
           (SubmissionState.Sending, 0), (SubmissionState.Succeeded, 1000),
           (SubmissionState.Idle, resetDelay)]
    ∧ (handleSubmit sampleGood (Outcome.failure "x") 1000).trace
        = [(SubmissionState.Idle, 0), (SubmissionState.Validating, 0),
           (SubmissionState.Sending, 0), (SubmissionState.Failed, 1000),
           (SubmissionState.Idle, 0)] :=
  ⟨(handleSubmit_transitions sampleGood Outcome.success 1000).1,
   (handleSubmit_transitions sampleBad Outcome.success 1000).2.1 (by decide),
   (handleSubmit_transitions sampleGood Outcome.success 1000).2.2.1 (by decide),
   (handleSubmit_transitions sampleGood Outcome.success 1000).2.2.2 (by decide) "x"⟩

/-- C3 counterexample: on a rejected submission the Failed phase returns to
Idle with delay 0, not after the fixed observation window — the catch branch
re-enables the button synchronously, while only the success branch waits
`resetDelay` (3000 ms) before returning to Idle. -/
theorem failed_returns_immediately :
    (handleSubmit sampleGood (Outcome.failure "network down") 1000).trace.getLast?
      = some (SubmissionState.Idle, 0)
    ∧ (handleSubmit sampleGood Outcome.success 1000).trace.getLast?
      = some (SubmissionState.Idle, resetDelay)
    ∧ (0 : Nat) ≠ resetDelay := by decide

/-- C4: when validation fails at submit, the collaborator is never invoked and
focus moves to the first field, in declaration order, whose element carries
the invalid marker; that field is indeed marked invalid. -/
theorem handleSubmit_invalid_spec (s : AppState) (o : Outcome) (d : Nat)
    (hv : (afterValidation s).1 = false) :
    (handleSubmit s o d).calls = 0
    ∧ (∀ fn : FName, firstInvalidField (afterValidation s).2.form = some fn →
        (handleSubmit s o d).state.focused = some (FocusTarget.field fn)
        ∧ (getF (afterValidation s).2.form fn).element.map ElemState.ariaInvalid
            = some true) := by
  constructor
  · simp [handleSubmit, hv]
  · intro fn hf
    constructor
    · simp [handleSubmit, hv, firstInvalidField] at hf ⊢
      rw [hf]
    · unfold firstInvalidField at hf
      have hp := List.find?_some hf
      cases he : (getF (afterValidation s).2.form fn).element with
      | none =>
          rw [he] at hp
          simp at hp
      | some el =>
          rw [he] at hp
          simp at hp
          simp [hp]

/-- C4 witness: name valid, email invalid, message too short — focus lands on
email (declared before message), with no collaborator call. -/
theorem handleSubmit_invalid_witness :
    (handleSubmit sampleBad Outcome.success 1000).calls = 0
    ∧ (handleSubmit sampleBad Outcome.success 1000).state.focused
        = some (FocusTarget.field FName.email)
    ∧ (getF (afterValidation sampleBad).2.form FName.email).element.map ElemState.ariaInvalid
        = some true :=
  ⟨(handleSubmit_invalid_spec sampleBad Outcome.success 1000 (by decide)).1,
   ((handleSubmit_invalid_spec sampleBad Outcome.success 1000 (by decide)).2 FName.email
      (by decide)).1,
   ((handleSubmit_invalid_spec sampleBad Outcome.success 1000 (by decide)).2 FName.email
      (by decide)).2⟩

/-- C5: while a validated submission is in flight the submit control is
disabled, so a second submit request in that state is a no-op — the page state
is unchanged and the collaborator is invoked zero further times. -/
theorem sending_reentrancy (s : AppState) (o : Outcome) (d : Nat)
    (_hv : (afterValidation s).1 = true) :
    (sendingState s).buttonDisabled = true
    ∧ requestSubmit (sendingState s) o d
        = { state := sendingState s, calls := 0, trace := [] }
    ∧ (requestSubmit (sendingState s) o d).calls = 0 := by
  refine ⟨rfl, ?_, ?_⟩ <;> rfl

/-- C5 witness: a second submit during the in-flight state of the valid form
does nothing and never reaches the collaborator. -/
theorem sending_reentrancy_witness :
    (sendingState sampleGood).buttonDisabled = true
    ∧ requestSubmit (sendingState sampleGood) Outcome.success 1000
        = { state := sendingState sampleGood, calls := 0, trace := [] } :=
  ⟨(sending_reentrancy sampleGood Outcome.success 1000 (by decide)).1,
   (sending_reentrancy sampleGood Outcome.success 1000 (by decide)).2.1⟩
